import Mathlib

/-!
Verification of the DXF export service
(src/services/dxf-export/src/services/dxf_export_service.py).

The service converts a loosely-typed scene model into DXF drawing
primitives.  This file shallowly embeds the conversion and validation
logic: Python dictionaries become association lists over `PyVal`,
Python floats become `Rat`, raised exceptions become `Except.error`,
and the ezdxf modelspace becomes the list of primitives added to it.
-/

/-- A Python value as it can occur in an entity's open field bag
(JSON-shaped data decoded by pydantic). -/
inductive PyVal where
  | none
  | bool (b : Bool)
  | int (n : Int)
  | num (q : Rat)
  | str (s : String)
  | list (xs : List PyVal)
  | dict (xs : List (String × PyVal))

/-- A Python dict with string keys, as an association list (keys unique,
first binding wins on lookup, matching dict semantics). -/
abbrev Bag := List (String × PyVal)

/-- Python `d.get(k)` / `k in d` on a string-keyed dict. -/
def dictGet (d : Bag) (k : String) : Option PyVal :=
  (d.find? (fun p => p.1 == k)).map (fun p => p.2)

def PyVal.isNone : PyVal → Bool
  | PyVal.none => true
  | _ => false

/-- Whether a digit string is non-empty and all decimal digits. -/
def isDigitsStr (s : String) : Bool :=
  !s.isEmpty && s.toList.all Char.isDigit

def digitsToNat (s : String) : Nat :=
  s.toList.foldl (fun a c => 10 * a + (c.toNat - 48)) 0

/-- Decimal forms accepted by the builtin float parser
(optional sign, digits, optional fractional part).  Models the common
decimal literals; scientific notation and special values are not needed
by any entity payload considered here. -/
def parseDec? (s : String) : Option Rat :=
  let signed : Rat × String :=
    if s.startsWith "-" then (-1, s.drop 1)
    else if s.startsWith "+" then (1, s.drop 1)
    else (1, s)
  match (signed.2).splitOn "." with
  | [intPart] =>
      if isDigitsStr intPart then some (signed.1 * (digitsToNat intPart : Rat))
      else Option.none
  | [intPart, fracPart] =>
      if isDigitsStr intPart && isDigitsStr fracPart then
        some (signed.1 * ((digitsToNat intPart : Rat) +
          (digitsToNat fracPart : Rat) / ((10 : Rat) ^ fracPart.length)))
      else Option.none
  | _ => Option.none

/-- Python `float(v)`: succeeds on bools, ints, floats and numeric
strings; raises (modelled as `Except.error`) on everything else. -/
def pyFloat (v : PyVal) : Except String Rat :=
  match v with
  | PyVal.bool b => Except.ok (if b then 1 else 0)
  | PyVal.int n => Except.ok (n : Rat)
  | PyVal.num q => Except.ok q
  | PyVal.str s =>
      match parseDec? s with
      | some q => Except.ok q
      | Option.none => Except.error ("could not convert string to float: " ++ s)
  | PyVal.none => Except.error "float argument must be a string or a real number, not NoneType"
  | PyVal.list _ => Except.error "float argument must be a string or a real number, not list"
  | PyVal.dict _ => Except.error "float argument must be a string or a real number, not dict"

def excIsOk {e a : Type} : Except e a → Bool
  | Except.ok _ => true
  | Except.error _ => false

/-- `val.get("x", val.get("X"))` followed by the `is not None` test of
`_get_point`: the coordinate candidate under a lower/upper key pair,
`none` when absent or bound to Python None. -/
def xyLookup (d : Bag) (lo hi : String) : Option PyVal :=
  let v :=
    match dictGet d lo with
    | some v => v
    | Option.none =>
        match dictGet d hi with
        | some v => v
        | Option.none => PyVal.none
  if v.isNone then Option.none else some v

/-- One candidate value of `_get_point` (also reused verbatim for each
item of `_get_points`): a dict with x/y coordinates or a sequence with
at least two elements parses to a point (float conversion can raise);
any other shape signals "keep probing" (`ok none`). -/
def getPointFromVal (v : PyVal) : Except String (Option (Rat × Rat)) :=
  match v with
  | PyVal.dict d =>
      match xyLookup d "x" "X", xyLookup d "y" "Y" with
      | some xv, some yv =>
          match pyFloat xv with
          | Except.error msg => Except.error msg
          | Except.ok x =>
              match pyFloat yv with
              | Except.error msg => Except.error msg
              | Except.ok y => Except.ok (some (x, y))
      | _, _ => Except.ok Option.none
  | PyVal.list xs =>
      match xs with
      | a :: b :: _ =>
          match pyFloat a with
          | Except.error msg => Except.error msg
          | Except.ok x =>
              match pyFloat b with
              | Except.error msg => Except.error msg
              | Except.ok y => Except.ok (some (x, y))
      | _ => Except.ok Option.none
  | _ => Except.ok Option.none

/-- `DxfExportService._get_point` over an entity's field bag:
first alias whose value parses wins; exhausting the aliases yields
`ok none`; a malformed coordinate propagates the raised error. -/
def getPoint (bag : Bag) : List String → Except String (Option (Rat × Rat))
  | [] => Except.ok Option.none
  | k :: ks =>
      match dictGet bag k with
      | some v =>
          match getPointFromVal v with
          | Except.error msg => Except.error msg
          | Except.ok (some p) => Except.ok (some p)
          | Except.ok Option.none => getPoint bag ks
      | Option.none => getPoint bag ks

/-- The item loop of `_get_points`: parseable items are collected,
unparseable shapes are silently dropped, a malformed coordinate raises. -/
def parseItems : List PyVal → Except String (List (Rat × Rat))
  | [] => Except.ok []
  | it :: rest =>
      match getPointFromVal it with
      | Except.error msg => Except.error msg
      | Except.ok r =>
          match parseItems rest with
          | Except.error msg => Except.error msg
          | Except.ok ps =>
              match r with
              | some p => Except.ok (p :: ps)
              | Option.none => Except.ok ps

/-- `DxfExportService._get_points`: first alias bound to a list that
yields at least one parsed point wins; an empty yield keeps probing. -/
def getPoints (bag : Bag) : List String → Except String (Option (List (Rat × Rat)))
  | [] => Except.ok Option.none
  | k :: ks =>
      match dictGet bag k with
      | some (PyVal.list items) =>
          match parseItems items with
          | Except.error msg => Except.error msg
          | Except.ok ps =>
              if ps.isEmpty then getPoints bag ks else Except.ok (some ps)
      | some _ => getPoints bag ks
      | Option.none => getPoints bag ks

/-- `DxfExportService._get_float`: first numerically-typed alias value
(Python bool/int/float, bool being an int subclass); numeric strings are
not accepted.  Total: no coercion is attempted on other shapes. -/
def getFloat (bag : Bag) : List String → Option Rat
  | [] => Option.none
  | k :: ks =>
      match dictGet bag k with
      | some (PyVal.bool b) => some (if b then 1 else 0)
      | some (PyVal.int n) => some (n : Rat)
      | some (PyVal.num q) => some q
      | some _ => getFloat bag ks
      | Option.none => getFloat bag ks

/-- `DxfExportService._get_string`: first string-typed alias value. -/
def getString (bag : Bag) : List String → Option String
  | [] => Option.none
  | k :: ks =>
      match dictGet bag k with
      | some (PyVal.str s) => some s
      | some _ => getString bag ks
      | Option.none => getString bag ks

/-- `DxfExportService._get_bool`: first bool-typed alias value,
defaulting to false. -/
def getBool (bag : Bag) : List String → Bool
  | [] => false
  | k :: ks =>
      match dictGet bag k with
      | some (PyVal.bool b) => b
      | some _ => getBool bag ks
      | Option.none => getBool bag ks

/-- `SceneEntity` (pydantic, extra fields allowed): declared fields plus
an open bag of extra geometry fields. -/
structure SceneEntity where
  id : String
  type : String
  layer : String := "0"
  color : Option String := Option.none
  visible : Bool := true
  extra : Bag := []

/-- `entity.model_dump()`: declared fields first, then the extras
(pydantic parses a same-named extra into the declared field, so the
declared bindings take precedence). -/
def SceneEntity.dump (e : SceneEntity) : Bag :=
  [("id", PyVal.str e.id), ("type", PyVal.str e.type), ("layer", PyVal.str e.layer),
   ("color", match e.color with | some c => PyVal.str c | Option.none => PyVal.none),
   ("visible", PyVal.bool e.visible)] ++ e.extra

structure SceneLayer where
  name : String
  color : Option String := Option.none
  visible : Bool := true
  locked : Bool := false
  line_type : String := "CONTINUOUS"

structure SceneModel where
  entities : List SceneEntity := []
  layers : List SceneLayer := []

inductive DxfVersion where
  | AC1009 | AC1015 | AC1018 | AC1021 | AC1024 | AC1027 | AC1032
deriving DecidableEq

inductive DxfExportStatus where
  | SUCCESS | PARTIAL | ERROR
deriving DecidableEq

inductive IssueSeverity where
  | error | warning | info
deriving DecidableEq

structure DxfLayerConfig where
  visible_only : Bool := true
  include_locked : Bool := false
  flatten_to_layer : Option String := Option.none
  layer_mapping : List (String × String) := []
  default_layer : String := "0"

/-- The settings fields the conversion engine reads; units, encoding and
quality settings only influence header setup and serialization. -/
structure DxfExportSettings where
  version : DxfVersion := DxfVersion.AC1015
  layers : DxfLayerConfig := {}

/-- `ENTITY_TYPE_MAPPING`: Nestor entity kind to ezdxf type, `none`
meaning internal-only. -/
def ENTITY_TYPE_MAPPING : List (String × Option String) :=
  [("line", some "LINE"), ("polyline", some "POLYLINE"),
   ("lwpolyline", some "LWPOLYLINE"), ("circle", some "CIRCLE"),
   ("arc", some "ARC"), ("ellipse", some "ELLIPSE"), ("text", some "TEXT"),
   ("mtext", some "MTEXT"), ("spline", some "SPLINE"),
   ("rectangle", some "LWPOLYLINE"), ("rect", some "LWPOLYLINE"),
   ("point", some "POINT"), ("dimension", some "DIMENSION"),
   ("block", some "INSERT"), ("angle-measurement", Option.none),
   ("leader", some "LEADER"), ("hatch", some "HATCH"),
   ("xline", some "XLINE"), ("ray", some "RAY")]

/-- `ENTITY_TYPE_MAPPING.get(entity.type)`: an unknown kind and a kind
mapped to None both come back as `none`. -/
def mapEntityType (t : String) : Option String :=
  match ENTITY_TYPE_MAPPING.find? (fun p => p.1 == t) with
  | some p => p.2
  | Option.none => Option.none

def R12_SUPPORTED_TYPES : List String :=
  ["LINE", "POLYLINE", "CIRCLE", "ARC", "TEXT", "POINT"]

/-- The R12 compatibility test used by both `_export_entity` and
`_validate_entity`: deny exactly when targeting AC1009 and the dxf type
is outside the R12-supported set. -/
def r12Denies (version : DxfVersion) (dxfType : String) : Bool :=
  decide (version = DxfVersion.AC1009) && !(R12_SUPPORTED_TYPES.contains dxfType)

/-- A string lookup on the layer-mapping dict. -/
def strMapGet (m : List (String × String)) (k : String) : Option String :=
  (m.find? (fun p => p.1 == k)).map (fun p => p.2)

/-- `DxfExportService._get_target_layer`.  Python truthiness: an empty
flatten target behaves as unset, and an empty looked-up name (mapped or
declared) falls back to the default layer. -/
def getTargetLayer (entityLayer : String) (config : DxfLayerConfig) : String :=
  let flattenTruthy :=
    match config.flatten_to_layer with
    | some f => !f.isEmpty
    | Option.none => false
  if flattenTruthy then
    match config.flatten_to_layer with
    | some f => f
    | Option.none => config.default_layer
  else
    let looked :=
      match strMapGet config.layer_mapping entityLayer with
      | some m => m
      | Option.none => entityLayer
    if looked.isEmpty then config.default_layer else looked

/-- A drawing primitive added to the ezdxf modelspace. -/
inductive Primitive where
  | line (s t : Rat × Rat)
  | lwpolyline (pts : List (Rat × Rat)) (closed : Bool)
  | circle (c : Rat × Rat) (r : Rat)
  | arc (c : Rat × Rat) (r sa ea : Rat)
  | text (t : String) (height rot : Rat) (ins : Rat × Rat)
  | point (p : Rat × Rat)

/-- `_export_line`: draws only when both endpoints resolve (a 2-tuple is
always truthy, so truthiness equals presence here). -/
def exportLine (e : SceneEntity) : Except String (List Primitive) :=
  match getPoint e.dump ["start", "startPoint", "p1"] with
  | Except.error msg => Except.error msg
  | Except.ok start =>
      match getPoint e.dump ["end", "endPoint", "p2"] with
      | Except.error msg => Except.error msg
      | Except.ok stop =>
          match start, stop with
          | some s, some t => Except.ok [Primitive.line s t]
          | _, _ => Except.ok []

/-- `_export_lwpolyline`: needs a resolved point list of length at least
two; closedness comes from the closed/isClosed bool field and is forced
for rectangle kinds. -/
def exportLwpolyline (e : SceneEntity) : Except String (List Primitive) :=
  match getPoints e.dump ["points", "vertices", "polygon"] with
  | Except.error msg => Except.error msg
  | Except.ok (some pts) =>
      if 2 ≤ pts.length then
        let isClosed :=
          if e.type = "rectangle" ∨ e.type = "rect" then true
          else getBool e.dump ["closed", "isClosed"]
        Except.ok [Primitive.lwpolyline pts isClosed]
      else Except.ok []
  | Except.ok Option.none => Except.ok []

/-- `_export_circle`: `if center and radius` tests the radius for
truthiness, so a resolved radius of 0.0 draws nothing. -/
def exportCircle (e : SceneEntity) : Except String (List Primitive) :=
  match getPoint e.dump ["center", "centerPoint"] with
  | Except.error msg => Except.error msg
  | Except.ok center =>
      match center, getFloat e.dump ["radius", "r"] with
      | some c, some r => if r = 0 then Except.ok [] else Except.ok [Primitive.circle c r]
      | _, _ => Except.ok []

/-- `_export_arc`: radius and both angles are tested with `is not None`,
so zero values do draw. -/
def exportArc (e : SceneEntity) : Except String (List Primitive) :=
  match getPoint e.dump ["center", "centerPoint"] with
  | Except.error msg => Except.error msg
  | Except.ok center =>
      match center, getFloat e.dump ["radius", "r"],
            getFloat e.dump ["startAngle", "start_angle"],
            getFloat e.dump ["endAngle", "end_angle"] with
      | some c, some r, some sa, some ea => Except.ok [Primitive.arc c r sa ea]
      | _, _, _, _ => Except.ok []

/-- `_export_text`: height falls back to 2.5 under truthiness (zero
included), rotation to 0; an empty text string is falsy and draws
nothing. -/
def exportText (e : SceneEntity) : Except String (List Primitive) :=
  match getPoint e.dump ["insert", "position", "location"] with
  | Except.error msg => Except.error msg
  | Except.ok insert =>
      let text := getString e.dump ["text", "content", "value"]
      let height :=
        match getFloat e.dump ["height", "fontSize"] with
        | some h => if h = 0 then (5 : Rat) / 2 else h
        | Option.none => (5 : Rat) / 2
      match insert, text with
      | some i, some t =>
          if t.isEmpty then Except.ok []
          else
            let rotation :=
              match getFloat e.dump ["rotation", "angle"] with
              | some r => r
              | Option.none => 0
            Except.ok [Primitive.text t height rotation i]
      | _, _ => Except.ok []

/-- `_export_point`. -/
def exportPoint (e : SceneEntity) : Except String (List Primitive) :=
  match getPoint e.dump ["location", "position", "point"] with
  | Except.error msg => Except.error msg
  | Except.ok (some p) => Except.ok [Primitive.point p]
  | Except.ok Option.none => Except.ok []

/-- The builder dispatch of `_export_entity`; `none` is the final else
branch (resolved dxf type without an implemented builder). -/
def dispatchBuilder (dxfType : String) (e : SceneEntity) :
    Option (Except String (List Primitive)) :=
  if dxfType = "LINE" then some (exportLine e)
  else if dxfType = "LWPOLYLINE" then some (exportLwpolyline e)
  else if dxfType = "CIRCLE" then some (exportCircle e)
  else if dxfType = "ARC" then some (exportArc e)
  else if dxfType = "TEXT" then some (exportText e)
  else if dxfType = "POINT" then some (exportPoint e)
  else Option.none

structure EntityExportResult where
  entity_id : String
  success : Bool
  dxf_type : Option String := Option.none
  warnings : List String := []
  error : Option String := Option.none
deriving DecidableEq

/-- `DxfExportService._export_entity`: the per-entity result together
with the primitives added to the modelspace, each routed to its target
layer.  A raised exception inside a builder is caught and recorded as a
failed result (the source interpolates names in quotes inside its
warning strings; the quotes are elided here). -/
def exportEntity (e : SceneEntity) (version : DxfVersion) (cfg : DxfLayerConfig) :
    EntityExportResult × List (String × Primitive) :=
  match mapEntityType e.type with
  | Option.none =>
      ({ entity_id := e.id, success := false, dxf_type := Option.none,
         warnings := ["Entity type " ++ e.type ++ " is not exportable"] }, [])
  | some dxfType =>
      if r12Denies version dxfType then
        ({ entity_id := e.id, success := false, dxf_type := some dxfType,
           warnings := ["Entity type " ++ dxfType ++ " not supported in R12"],
           error := some "R12 version does not support this entity type" }, [])
      else
        let layer := getTargetLayer e.layer cfg
        match dispatchBuilder dxfType e with
        | some (Except.ok prims) =>
            ({ entity_id := e.id, success := true, dxf_type := some dxfType,
               warnings := [] }, prims.map (fun p => (layer, p)))
        | some (Except.error msg) =>
            ({ entity_id := e.id, success := false, dxf_type := some dxfType,
               warnings := [], error := some msg }, [])
        | Option.none =>
            ({ entity_id := e.id, success := false, dxf_type := some dxfType,
               warnings := ["Export for " ++ dxfType ++ " not yet implemented"],
               error := some "Entity type export not implemented" }, [])

/-- Stage (a) of `_filter_entities`: `if entity_ids:` is Python
truthiness, so both None and the empty list disable the id filter. -/
def idFilter (es : List SceneEntity) (entityIds : Option (List String)) :
    List SceneEntity :=
  match entityIds with
  | some ids => if ids.isEmpty then es else es.filter (fun e => ids.contains e.id)
  | Option.none => es

/-- Stage (b): layer-name filter, same truthiness convention. -/
def layerFilter (es : List SceneEntity) (layerNames : Option (List String)) :
    List SceneEntity :=
  match layerNames with
  | some ls => if ls.isEmpty then es else es.filter (fun e => ls.contains e.layer)
  | Option.none => es

/-- Stage (c): visibility filter under the routing config flag. -/
def visFilter (es : List SceneEntity) (cfg : DxfLayerConfig) : List SceneEntity :=
  if cfg.visible_only then es.filter (fun e => e.visible) else es

/-- `DxfExportService._filter_entities`: the three stages in order. -/
def filterEntities (es : List SceneEntity) (entityIds layerNames : Option (List String))
    (cfg : DxfLayerConfig) : List SceneEntity :=
  visFilter (layerFilter (idFilter es entityIds) layerNames) cfg

/-- The running accumulators of the `export_scene` entity loop. -/
structure ExportAcc where
  results : List EntityExportResult := []
  exported : Nat := 0
  skipped : Nat := 0
  failed : Nat := 0
  emitted : List (String × Primitive) := []
  warns : List String := []

/-- One iteration of the `export_scene` loop: classify the result into
exactly one of exported / skipped / failed and extend the accumulators. -/
def exportStep (settings : DxfExportSettings) (acc : ExportAcc) (e : SceneEntity) :
    ExportAcc :=
  let r := (exportEntity e settings.version settings.layers).1
  let prims := (exportEntity e settings.version settings.layers).2
  { results := acc.results ++ [r]
    exported := acc.exported + (if r.success then 1 else 0)
    skipped := acc.skipped +
      (if r.success then 0 else if r.dxf_type = Option.none then 1 else 0)
    failed := acc.failed +
      (if r.success then 0 else if r.dxf_type = Option.none then 0 else 1)
    emitted := acc.emitted ++ prims
    warns := acc.warns ++ r.warnings }

structure ExportOutcome where
  status : DxfExportStatus
  entity_results : List EntityExportResult
  exported : Nat
  skipped : Nat
  failed : Nat
  total : Nat
  emitted : List (String × Primitive)
  warns : List String

/-- `DxfExportService.export_scene`: filter, convert each entity,
aggregate counts, and derive the overall status from the counters
(document serialization and header setup carry no claim content). -/
def exportScene (scene : SceneModel) (settings : DxfExportSettings)
    (entityIds layerNames : Option (List String)) : ExportOutcome :=
  let filtered := filterEntities scene.entities entityIds layerNames settings.layers
  let acc := filtered.foldl (exportStep settings) {}
  { status :=
      if 0 < acc.failed then
        if 0 < acc.exported then DxfExportStatus.PARTIAL else DxfExportStatus.ERROR
      else DxfExportStatus.SUCCESS
    entity_results := acc.results
    exported := acc.exported
    skipped := acc.skipped
    failed := acc.failed
    total := scene.entities.length
    emitted := acc.emitted
    warns := acc.warns }

structure ValidationIssue where
  severity : IssueSeverity
  code : String
  message : String
  suggestion : Option String := Option.none
deriving DecidableEq

structure EntityValidationResult where
  entity_id : String
  entity_type : String
  exportable : Bool
  issues : List ValidationIssue
deriving DecidableEq

/-- `DxfExportService._validate_entity` (quotes around interpolated
names elided from the messages, as in the export results). -/
def validateEntity (e : SceneEntity) (v : DxfVersion) : EntityValidationResult :=
  match mapEntityType e.type with
  | Option.none =>
      { entity_id := e.id, entity_type := e.type, exportable := false,
        issues := [{ severity := IssueSeverity.warning, code := "NOT_EXPORTABLE",
                     message := "Entity type " ++ e.type ++ " cannot be exported to DXF",
                     suggestion := some "This entity will be skipped during export" }] }
  | some dxfType =>
      if r12Denies v dxfType then
        { entity_id := e.id, entity_type := e.type, exportable := false,
          issues := [{ severity := IssueSeverity.error, code := "VERSION_INCOMPATIBLE",
                       message := "Entity type " ++ dxfType ++ " not supported in R12",
                       suggestion := some "Use R2000 (AC1015) or later for full entity support" }] }
      else
        { entity_id := e.id, entity_type := e.type, exportable := true, issues := [] }

/-- The per-issue severity tally of the `validate_scene` loop
(errors, warnings, infos). -/
def issueStep (acc : Nat × Nat × Nat) (i : ValidationIssue) : Nat × Nat × Nat :=
  match i.severity with
  | IssueSeverity.error => (acc.1 + 1, acc.2.1, acc.2.2)
  | IssueSeverity.warning => (acc.1, acc.2.1 + 1, acc.2.2)
  | IssueSeverity.info => (acc.1, acc.2.1, acc.2.2 + 1)

structure ValidationAcc where
  results : List EntityValidationResult := []
  exportable : Nat := 0
  errors : Nat := 0
  warnings : Nat := 0
  infos : Nat := 0

/-- One iteration of the `validate_scene` loop. -/
def valStep (v : DxfVersion) (acc : ValidationAcc) (e : SceneEntity) : ValidationAcc :=
  let r := validateEntity e v
  let c := r.issues.foldl issueStep (0, 0, 0)
  { results := acc.results ++ [r]
    exportable := acc.exportable + (if r.exportable then 1 else 0)
    errors := acc.errors + c.1
    warnings := acc.warnings + c.2.1
    infos := acc.infos + c.2.2 }

structure ValidationOutcome where
  valid : Bool
  total : Nat
  exportable : Nat
  non_exportable : Nat
  results : List EntityValidationResult
  errors : Nat
  warnings : Nat
  infos : Nat

/-- `DxfExportService.validate_scene`: per-entity validation results,
severity tallies, and overall validity (no errors). -/
def validateScene (scene : SceneModel) (v : DxfVersion) : ValidationOutcome :=
  let acc := scene.entities.foldl (valStep v) {}
  { valid := acc.errors == 0
    total := scene.entities.length
    exportable := acc.exportable
    non_exportable := scene.entities.length - acc.exportable
    results := acc.results
    errors := acc.errors
    warnings := acc.warnings
    infos := acc.infos }

/-- Recount of exported entities from a result list: the per-entity
results whose success flag is set. -/
def exportedCount (rs : List EntityExportResult) : Nat :=
  (rs.filter (fun r => r.success)).length

/-- Recount of skipped entities: unsuccessful with no resolved type. -/
def skippedCount (rs : List EntityExportResult) : Nat :=
  (rs.filter (fun r => !r.success && r.dxf_type.isNone)).length

/-- Recount of failed entities: unsuccessful with a resolved type. -/
def failedCount (rs : List EntityExportResult) : Nat :=
  (rs.filter (fun r => !r.success && !r.dxf_type.isNone)).length

/-- The claim's status rule, as a pure function of the counts. -/
def statusOf (failed exported : Nat) : DxfExportStatus :=
  if 0 < failed then
    if 0 < exported then DxfExportStatus.PARTIAL else DxfExportStatus.ERROR
  else DxfExportStatus.SUCCESS

/-- Total ERROR-severity issues across a validation result list. -/
def errorIssueCount (rs : List EntityValidationResult) : Nat :=
  (rs.map (fun r =>
    (r.issues.filter (fun i => decide (i.severity = IssueSeverity.error))).length)).sum

section Helpers

/-- A successful point parse, with raised errors erased; under the
well-formedness hypotheses below this is exactly what `getPoint` sees
per alias value. -/
def pointParse? (v : PyVal) : Option (Rat × Rat) :=
  match getPointFromVal v with
  | Except.ok r => r
  | Except.error _ => Option.none

/-- The per-alias outcome of `_get_points` on one value, errors erased:
a list value yielding at least one parsed point. -/
def pointsParse? (v : PyVal) : Option (List (Rat × Rat)) :=
  match v with
  | PyVal.list items =>
      match parseItems items with
      | Except.ok ps => if ps.isEmpty then Option.none else some ps
      | Except.error _ => Option.none
  | _ => Option.none

/-- The per-alias outcome of `_get_float` on one value. -/
def numParse? (v : PyVal) : Option Rat :=
  match v with
  | PyVal.bool b => some (if b then 1 else 0)
  | PyVal.int n => some (n : Rat)
  | PyVal.num q => some q
  | _ => Option.none

/-- The per-alias outcome of `_get_string` on one value. -/
def strParse? (v : PyVal) : Option String :=
  match v with
  | PyVal.str s => some s
  | _ => Option.none

/-- The alias value under this key, if any, parses as a point without
raising. -/
def aliasPointWF (bag : Bag) (k : String) : Bool :=
  match dictGet bag k with
  | some v => excIsOk (getPointFromVal v)
  | Option.none => true

/-- The alias value under this key, if a list, collects its items
without raising. -/
def aliasPointsWF (bag : Bag) (k : String) : Bool :=
  match dictGet bag k with
  | some (PyVal.list items) => excIsOk (parseItems items)
  | _ => true

theorem getPointFromVal_ok_of_wf (v : PyVal) (h : excIsOk (getPointFromVal v) = true) :
    getPointFromVal v = Except.ok (pointParse? v) := by
  unfold pointParse?
  cases hv : getPointFromVal v with
  | ok r => rfl
  | error msg => rw [hv] at h; simp [excIsOk] at h

theorem getPoint_findSome (bag : Bag) (keys : List String)
    (hp : keys.all (aliasPointWF bag) = true) :
    getPoint bag keys
      = Except.ok (keys.findSome? (fun k => (dictGet bag k).bind pointParse?)) := by
  induction keys with
  | nil => rfl
  | cons k ks ih =>
      simp only [List.all_cons, Bool.and_eq_true] at hp
      rw [List.findSome?_cons]
      cases hk : dictGet bag k with
      | none => simp [getPoint, hk, ih hp.2, Option.bind]
      | some v =>
          have hwf : excIsOk (getPointFromVal v) = true := by
            have := hp.1; rw [aliasPointWF, hk] at this; exact this
          simp only [getPoint, hk]
          rw [getPointFromVal_ok_of_wf v hwf]
          cases hpv : pointParse? v with
          | none => simp [hpv, ih hp.2, Option.bind]
          | some p => simp [hpv, Option.bind]

theorem getPoints_findSome (bag : Bag) (keys : List String)
    (hq : keys.all (aliasPointsWF bag) = true) :
    getPoints bag keys
      = Except.ok (keys.findSome? (fun k => (dictGet bag k).bind pointsParse?)) := by
  induction keys with
  | nil => rfl
  | cons k ks ih =>
      simp only [List.all_cons, Bool.and_eq_true] at hq
      rw [List.findSome?_cons]
      cases hk : dictGet bag k with
      | none => simp [getPoints, hk, ih hq.2, Option.bind, pointsParse?]
      | some v =>
          cases v with
          | list items =>
              have hwf : excIsOk (parseItems items) = true := by
                have := hq.1; rw [aliasPointsWF, hk] at this; exact this
              cases hpi : parseItems items with
              | error msg => rw [hpi] at hwf; simp [excIsOk] at hwf
              | ok ps =>
                  cases hempty : ps.isEmpty with
                  | true => simp [getPoints, hk, hpi, hempty, ih hq.2, pointsParse?,
                              Option.bind]
                  | false => simp [getPoints, hk, hpi, hempty, pointsParse?, Option.bind]
          | none => simp [getPoints, hk, ih hq.2, pointsParse?, Option.bind]
          | bool b => simp [getPoints, hk, ih hq.2, pointsParse?, Option.bind]
          | int n => simp [getPoints, hk, ih hq.2, pointsParse?, Option.bind]
          | num q => simp [getPoints, hk, ih hq.2, pointsParse?, Option.bind]
          | str s => simp [getPoints, hk, ih hq.2, pointsParse?, Option.bind]
          | dict d => simp [getPoints, hk, ih hq.2, pointsParse?, Option.bind]

theorem getFloat_findSome (bag : Bag) (keys : List String) :
    getFloat bag keys = keys.findSome? (fun k => (dictGet bag k).bind numParse?) := by
  induction keys with
  | nil => rfl
  | cons k ks ih =>
      rw [List.findSome?_cons]
      cases hk : dictGet bag k with
      | none => simp [getFloat, hk, ih, Option.bind]
      | some v => cases v <;> simp [getFloat, hk, ih, numParse?, Option.bind]

theorem getString_findSome (bag : Bag) (keys : List String) :
    getString bag keys = keys.findSome? (fun k => (dictGet bag k).bind strParse?) := by
  induction keys with
  | nil => rfl
  | cons k ks ih =>
      rw [List.findSome?_cons]
      cases hk : dictGet bag k with
      | none => simp [getString, hk, ih, Option.bind]
      | some v => cases v <;> simp [getString, hk, ih, strParse?, Option.bind]

end Helpers

section PipelineHelpers

theorem issueFoldErrors (issues : List ValidationIssue) (a b c : Nat) :
    (issues.foldl issueStep (a, b, c)).1
      = a + (issues.filter (fun i => decide (i.severity = IssueSeverity.error))).length := by
  induction issues generalizing a b c with
  | nil => simp
  | cons i is ih =>
      rw [List.foldl_cons]
      cases hs : i.severity <;>
        simp [issueStep, hs, ih, List.filter_cons] <;> omega

theorem valFold (v : DxfVersion) (es : List SceneEntity) (acc : ValidationAcc) :
    (es.foldl (valStep v) acc).results
        = acc.results ++ es.map (fun e => validateEntity e v) ∧
    (es.foldl (valStep v) acc).errors
        = acc.errors + errorIssueCount (es.map (fun e => validateEntity e v)) := by
  induction es generalizing acc with
  | nil => simp [errorIssueCount]
  | cons e es ih =>
      rw [List.foldl_cons]
      have h := ih (valStep v acc e)
      refine ⟨?_, ?_⟩
      · rw [h.1]
        simp [valStep]
      · rw [h.2]
        have hi := issueFoldErrors (validateEntity e v).issues 0 0 0
        simp [valStep, errorIssueCount] at hi ⊢
        omega

theorem countPartitionStep (r : EntityExportResult) (rs : List EntityExportResult) :
    exportedCount (r :: rs) + skippedCount (r :: rs) + failedCount (r :: rs)
      = 1 + (exportedCount rs + skippedCount rs + failedCount rs) := by
  cases hs : r.success <;> cases hd : r.dxf_type <;>
    simp [exportedCount, skippedCount, failedCount, List.filter_cons, hs, hd,
      Option.isNone] <;> omega

theorem countPartition (rs : List EntityExportResult) :
    exportedCount rs + skippedCount rs + failedCount rs = rs.length := by
  induction rs with
  | nil => simp [exportedCount, skippedCount, failedCount]
  | cons r rs ih => rw [countPartitionStep, ih, List.length_cons]; omega

theorem exportFold (s : DxfExportSettings) (es : List SceneEntity) (acc : ExportAcc) :
    (es.foldl (exportStep s) acc).results
        = acc.results ++ es.map (fun e => (exportEntity e s.version s.layers).1) ∧
    (es.foldl (exportStep s) acc).exported
        = acc.exported
          + exportedCount (es.map (fun e => (exportEntity e s.version s.layers).1)) ∧
    (es.foldl (exportStep s) acc).skipped
        = acc.skipped
          + skippedCount (es.map (fun e => (exportEntity e s.version s.layers).1)) ∧
    (es.foldl (exportStep s) acc).failed
        = acc.failed
          + failedCount (es.map (fun e => (exportEntity e s.version s.layers).1)) := by
  induction es generalizing acc with
  | nil => simp [exportedCount, skippedCount, failedCount]
  | cons e es ih =>
      rw [List.foldl_cons]
      have h := ih (exportStep s acc e)
      refine ⟨?_, ?_, ?_, ?_⟩
      · rw [h.1]; simp [exportStep]
      · rw [h.2.1]
        cases hs : (exportEntity e s.version s.layers).1.success <;>
          simp [exportStep, exportedCount, List.filter_cons, hs] <;> omega
      · rw [h.2.2.1]
        cases hs : (exportEntity e s.version s.layers).1.success <;>
          cases hd : (exportEntity e s.version s.layers).1.dxf_type <;>
            simp [exportStep, skippedCount, List.filter_cons, hs, hd, Option.isNone] <;>
              omega
      · rw [h.2.2.2]
        cases hs : (exportEntity e s.version s.layers).1.success <;>
          cases hd : (exportEntity e s.version s.layers).1.dxf_type <;>
            simp [exportStep, failedCount, List.filter_cons, hs, hd, Option.isNone] <;>
              omega

theorem filterEntities_sublist (es : List SceneEntity)
    (entityIds layerNames : Option (List String)) (cfg : DxfLayerConfig) :
    (filterEntities es entityIds layerNames cfg).Sublist es := by
  have h1 : (idFilter es entityIds).Sublist es := by
    cases entityIds with
    | none => exact List.Sublist.refl _
    | some ids =>
        cases h : ids.isEmpty <;> simp [idFilter, h] <;> first
          | exact List.Sublist.refl _
          | exact List.filter_sublist _
  have h2 : (layerFilter (idFilter es entityIds) layerNames).Sublist
      (idFilter es entityIds) := by
    cases layerNames with
    | none => exact List.Sublist.refl _
    | some ls =>
        cases h : ls.isEmpty <;> simp [layerFilter, h] <;> first
          | exact List.Sublist.refl _
          | exact List.filter_sublist _
  have h3 : (filterEntities es entityIds layerNames cfg).Sublist
      (layerFilter (idFilter es entityIds) layerNames) := by
    cases h : cfg.visible_only <;> simp [filterEntities, visFilter, h] <;> first
      | exact List.Sublist.refl _
      | exact List.filter_sublist _
  exact (h3.trans h2).trans h1

end PipelineHelpers

section ClaimInputs

/-- A line entity with no geometry fields at all. -/
def c1Entity : SceneEntity := { id := "e1", type := "line" }

/-- A field bag whose first start alias holds a 2-element sequence whose
first coordinate is Python None. -/
def c4BadBag : Bag := [("start", PyVal.list [PyVal.none, PyVal.int 1])]

/-- A well-formed bag exercising all four extractor shapes. -/
def c4GoodBag : Bag :=
  [("start", PyVal.list [PyVal.int 1, PyVal.int 2]),
   ("points", PyVal.list [PyVal.list [PyVal.int 0, PyVal.int 0],
                          PyVal.list [PyVal.int 3, PyVal.int 4]]),
   ("radius", PyVal.int 5),
   ("text", PyVal.str "hello")]

/-- A routing config mapping layer A to the empty string. -/
def c6Cfg : DxfLayerConfig := { layer_mapping := [("A", "")] }

def c6FlatCfg : DxfLayerConfig :=
  { flatten_to_layer := some "F", layer_mapping := [("A", "B")] }

def c7Entity : SceneEntity := { id := "a", type := "line" }

end ClaimInputs

/-- C1: the spec requires that a filtered entity whose resolved kind has
a builder but whose required geometry fields are unresolvable be reported
as a failure with a missing-geometry error.  The source instead performs
no drawing action and still reports success: a line entity with no start
or end fields yields success = true, no error, and nothing emitted, so
it is counted exported.  This theorem evaluates the code at that failing
input, exhibiting the divergence the spec flags as a defect. -/
theorem c1_missing_geometry_reported_success :
    exportEntity c1Entity DxfVersion.AC1015 {} =
      ({ entity_id := "e1", success := true, dxf_type := some "LINE",
         warnings := [], error := Option.none }, []) := by rfl

/-- C4 counterexample: the point extractor is not total.  On a bag whose
start alias holds a 2-element sequence with a non-numeric coordinate
(Python None), the float coercion raises, so extraction propagates an
exception instead of returning absent. -/
theorem c4_point_extractor_raises :
    excIsOk (getPoint c4BadBag ["start", "startPoint", "p1"]) = false := by rfl

/-- C4 amended: for every field bag and ordered alias list, each
extractor returns the value of the first alias that exists and parses
into the requested shape and returns absent when no alias parses —
without raising — provided every examined alias value itself parses
without raising; the scalar-number and string extractors satisfy this
unconditionally.  (As the counterexample shows, a malformed coordinate
inside a point-shaped or point-list-shaped alias value raises instead.) -/
theorem c4_extractors_first_alias (bag : Bag) (pkeys qkeys fkeys skeys : List String)
    (hp : pkeys.all (aliasPointWF bag) = true)
    (hq : qkeys.all (aliasPointsWF bag) = true) :
    getPoint bag pkeys
        = Except.ok (pkeys.findSome? (fun k => (dictGet bag k).bind pointParse?)) ∧
    getPoints bag qkeys
        = Except.ok (qkeys.findSome? (fun k => (dictGet bag k).bind pointsParse?)) ∧
    getFloat bag fkeys = fkeys.findSome? (fun k => (dictGet bag k).bind numParse?) ∧
    getString bag skeys = skeys.findSome? (fun k => (dictGet bag k).bind strParse?) :=
  ⟨getPoint_findSome bag pkeys hp, getPoints_findSome bag qkeys hq,
   getFloat_findSome bag fkeys, getString_findSome bag skeys⟩

theorem c4_extractors_first_alias_witness :
    getPoint c4GoodBag ["start", "p1"]
        = Except.ok ((["start", "p1"] : List String).findSome?
            (fun k => (dictGet c4GoodBag k).bind pointParse?)) ∧
    getPoints c4GoodBag ["points", "vertices"]
        = Except.ok ((["points", "vertices"] : List String).findSome?
            (fun k => (dictGet c4GoodBag k).bind pointsParse?)) ∧
    getFloat c4GoodBag ["radius", "r"]
        = (["radius", "r"] : List String).findSome?
            (fun k => (dictGet c4GoodBag k).bind numParse?) ∧
    getString c4GoodBag ["text", "content"]
        = (["text", "content"] : List String).findSome?
            (fun k => (dictGet c4GoodBag k).bind strParse?) :=
  c4_extractors_first_alias c4GoodBag ["start", "p1"] ["points", "vertices"]
    ["radius", "r"] ["text", "content"] (by rfl) (by rfl)

/-- C6 counterexample: the entity layer A is a key of the mapping, so
the claim requires the resolved layer to be the mapped name (the empty
string); the code instead applies Python truthiness to the looked-up
name and falls back to the default layer 0. -/
theorem c6_empty_mapped_name :
    strMapGet c6Cfg.layer_mapping "A" = some "" ∧ getTargetLayer "A" c6Cfg = "0" :=
  ⟨rfl, rfl⟩

/-- C6 amended: the resolved target layer is the flatten-target when one
is configured non-empty (overriding mapping and default); otherwise the
name looked up in the mapping (or the declared name when the layer is
not a mapping key), except that an empty looked-up name falls back to
the configured default layer name. -/
theorem c6_layer_resolution (l : String) (cfg : DxfLayerConfig) :
    (∀ f, cfg.flatten_to_layer = some f → f.isEmpty = false →
        getTargetLayer l cfg = f) ∧
    ((cfg.flatten_to_layer = Option.none ∨ cfg.flatten_to_layer = some "") →
      ∀ m, strMapGet cfg.layer_mapping l = some m →
        getTargetLayer l cfg = (if m.isEmpty then cfg.default_layer else m)) ∧
    ((cfg.flatten_to_layer = Option.none ∨ cfg.flatten_to_layer = some "") →
      strMapGet cfg.layer_mapping l = Option.none →
        getTargetLayer l cfg = (if l.isEmpty then cfg.default_layer else l)) := by
  refine ⟨?_, ?_, ?_⟩
  · intro f hf hne
    simp [getTargetLayer, hf, hne]
  · intro hfl m hm
    rcases hfl with h | h <;> simp [getTargetLayer, h, hm, String.isEmpty]
  · intro hfl hm
    rcases hfl with h | h <;> simp [getTargetLayer, h, hm, String.isEmpty]

theorem c6_layer_resolution_witness :
    getTargetLayer "A" c6FlatCfg = "F" :=
  (c6_layer_resolution "A" c6FlatCfg).1 "F" rfl rfl

/-- Layer-stage predicate of the filter pipeline, per entity. -/
def layerKeep (layerNames : Option (List String)) (e : SceneEntity) : Bool :=
  match layerNames with
  | some ls => if ls.isEmpty then true else ls.contains e.layer
  | Option.none => true

/-- Visibility-stage predicate of the filter pipeline, per entity. -/
def visKeep (cfg : DxfLayerConfig) (e : SceneEntity) : Bool :=
  !cfg.visible_only || e.visible

/-- C7 counterexample: with an explicitly provided empty entity_ids
list, the claim says no entity survives the id filter; the code tests
the list for truthiness, so the empty list disables the filter and the
entity is kept. -/
theorem c7_empty_id_list :
    (filterEntities [c7Entity] (some []) Option.none {}).map (fun e => e.id) = ["a"] ∧
    ([] : List String).contains "a" = false :=
  ⟨rfl, rfl⟩

/-- C7 amended: for every scene and every non-empty provided entity_ids
list, the entities considered are exactly those whose id is in the
provided id set, combined with the layer-name and visible-only
predicates in that order, and kept in original scene order (the result
is a sublist of the scene); a provided empty list instead disables the
id filter entirely, as the counterexample shows. -/
theorem c7_filter_characterization (es : List SceneEntity) (ids : List String)
    (layerNames : Option (List String)) (cfg : DxfLayerConfig) (h : ids ≠ []) :
    (filterEntities es (some ids) layerNames cfg).Sublist es ∧
    ∀ e, e ∈ filterEntities es (some ids) layerNames cfg ↔
      (e ∈ es ∧ ids.contains e.id = true ∧ layerKeep layerNames e = true ∧
        visKeep cfg e = true) := by
  have hne : ids.isEmpty = false := by
    cases ids with
    | nil => exact absurd rfl h
    | cons a as => rfl
  refine ⟨filterEntities_sublist es (some ids) layerNames cfg, ?_⟩
  intro e
  cases layerNames with
  | none =>
      cases hv : cfg.visible_only <;>
        simp [filterEntities, visFilter, layerFilter, idFilter, hne, layerKeep,
          visKeep, hv, List.mem_filter] <;> tauto
  | some ls =>
      cases hl : ls.isEmpty <;> cases hv : cfg.visible_only <;>
        simp [filterEntities, visFilter, layerFilter, idFilter, hne, layerKeep,
          visKeep, hv, hl, List.mem_filter] <;> tauto

theorem c7_filter_characterization_witness :
    c7Entity ∈ filterEntities [c7Entity] (some ["a"]) Option.none {} :=
  ((c7_filter_characterization [c7Entity] ["a"] Option.none {}
      (by simp)).2 c7Entity).mpr ⟨by simp, by rfl, by rfl, by rfl⟩

/-- C10: a circle entity whose bag resolves a center and whose radius
resolves to the number zero adds no circle primitive to the document,
yet reports success = true (hence is classified exported, the success
flag being the exported-count criterion): the radius is tested for
truthiness, not presence, so zero behaves like absent. -/
theorem c10_zero_radius_circle (e : SceneEntity) (v : DxfVersion)
    (cfg : DxfLayerConfig) (c : Rat × Rat)
    (ht : e.type = "circle")
    (hc : getPoint e.dump ["center", "centerPoint"] = Except.ok (some c))
    (hr : getFloat e.dump ["radius", "r"] = some 0) :
    exportEntity e v cfg =
      ({ entity_id := e.id, success := true, dxf_type := some "CIRCLE",
         warnings := [], error := Option.none }, []) := by
  have hm : mapEntityType e.type = some "CIRCLE" := by rw [ht]; rfl
  have hd : r12Denies v "CIRCLE" = false := by cases v <;> rfl
  have hb : exportCircle e = Except.ok [] := by
    unfold exportCircle
    rw [hc, hr]
    simp
  have hdp : dispatchBuilder "CIRCLE" e = some (exportCircle e) := rfl
  unfold exportEntity
  rw [hm]
  simp only [hd, Bool.false_eq_true, if_false, hdp, hb, List.map_nil]

def c10Entity : SceneEntity :=
  { id := "c1", type := "circle",
    extra := [("center", PyVal.list [PyVal.int 0, PyVal.int 0]),
              ("radius", PyVal.int 0)] }

theorem c10_zero_radius_circle_witness :
    exportEntity c10Entity DxfVersion.AC1015 {} =
      ({ entity_id := "c1", success := true, dxf_type := some "CIRCLE",
         warnings := [], error := Option.none }, []) :=
  c10_zero_radius_circle c10Entity DxfVersion.AC1015 {} (0, 0) rfl (by rfl) (by rfl)

/-- A polyline-kind entity with two resolvable points. -/
def c5PolyEntity : SceneEntity :=
  { id := "p1", type := "polyline",
    extra := [("points", PyVal.list [PyVal.list [PyVal.int 0, PyVal.int 0],
                                     PyVal.list [PyVal.int 1, PyVal.int 1]])] }

/-- C5 counterexample: an entity of the polyline kind with two
resolvable points under a non-maximum-compatibility version is not
exported with success: the registry maps it to the POLYLINE primitive,
which has no builder, so the dispatch fails it as not implemented. -/
theorem c5_polyline_kind_fails :
    getPoints c5PolyEntity.dump ["points", "vertices", "polygon"]
        = Except.ok (some [(0, 0), (1, 1)]) ∧
    (exportEntity c5PolyEntity DxfVersion.AC1015 {}).1.success = false ∧
    (exportEntity c5PolyEntity DxfVersion.AC1015 {}).1.error
        = some "Entity type export not implemented" :=
  ⟨rfl, rfl, rfl⟩

/-- C5 amended: the polyline builder is attached to the lightweight
polyline primitive, reached by the entity kinds lwpolyline, rectangle
and rect.  For every such filtered entity under a non-AC1009 version,
if at least 2 points resolve from its field bag then one lwpolyline
primitive is emitted with success = true, closedness taken from the
explicit closed/isClosed boolean field and forced true for
rectangle-like kinds; the kind named polyline instead resolves to the
builderless POLYLINE primitive and fails as not implemented, as the
counterexample shows. -/
theorem c5_lwpolyline_export (e : SceneEntity) (v : DxfVersion) (cfg : DxfLayerConfig)
    (pts : List (Rat × Rat))
    (hv : v ≠ DxfVersion.AC1009)
    (ht : e.type = "lwpolyline" ∨ e.type = "rectangle" ∨ e.type = "rect")
    (hp : getPoints e.dump ["points", "vertices", "polygon"] = Except.ok (some pts))
    (hl : 2 ≤ pts.length) :
    exportEntity e v cfg =
      ({ entity_id := e.id, success := true, dxf_type := some "LWPOLYLINE",
         warnings := [], error := Option.none },
       [(getTargetLayer e.layer cfg,
         Primitive.lwpolyline pts
           (if e.type = "rectangle" ∨ e.type = "rect" then true
            else getBool e.dump ["closed", "isClosed"]))]) := by
  have hm : mapEntityType e.type = some "LWPOLYLINE" := by
    rcases ht with h | h | h <;> rw [h] <;> rfl
  have hd : r12Denies v "LWPOLYLINE" = false := by
    cases v <;> first | rfl | exact absurd rfl hv
  have hb : exportLwpolyline e =
      Except.ok [Primitive.lwpolyline pts
        (if e.type = "rectangle" ∨ e.type = "rect" then true
         else getBool e.dump ["closed", "isClosed"])] := by
    unfold exportLwpolyline
    rw [hp]
    simp [hl]
  have hdp : dispatchBuilder "LWPOLYLINE" e = some (exportLwpolyline e) := rfl
  unfold exportEntity
  rw [hm]
  simp only [hd, Bool.false_eq_true, if_false, hdp, hb, List.map]

/-- A rectangle-like entity with four points and an explicit closed
flag set to false. -/
def c5RectEntity : SceneEntity :=
  { id := "r1", type := "rect",
    extra := [("closed", PyVal.bool false),
              ("points", PyVal.list [PyVal.list [PyVal.int 0, PyVal.int 0],
                                     PyVal.list [PyVal.int 2, PyVal.int 0],
                                     PyVal.list [PyVal.int 2, PyVal.int 1],
                                     PyVal.list [PyVal.int 0, PyVal.int 1]])] }

theorem c5_lwpolyline_export_witness :
    exportEntity c5RectEntity DxfVersion.AC1015 {} =
      ({ entity_id := "r1", success := true, dxf_type := some "LWPOLYLINE",
         warnings := [], error := Option.none },
       [("0", Primitive.lwpolyline [(0, 0), (2, 0), (2, 1), (0, 1)] true)]) := by
  have h := c5_lwpolyline_export c5RectEntity DxfVersion.AC1015 {}
    [(0, 0), (2, 0), (2, 1), (0, 1)] (by decide) (Or.inr (Or.inr rfl)) (by rfl)
    (by decide)
  exact h.trans (by rfl)

def c3Entity : SceneEntity := { id := "s1", type := "spline" }

/-- C3: for every entity whose kind is known to the registry, the
version check denies exactly under AC1009 with a primitive kind outside
the R12-supported set; when it denies, export fails the entity with the
R12 error (type resolved, so it is counted failed) and validation emits
exactly one ERROR issue with code VERSION_INCOMPATIBLE marking the
entity non-exportable; when it allows (in particular under every other
version), validation reports the entity exportable with no issues. -/
theorem c3_version_compatibility (e : SceneEntity) (v : DxfVersion) (k : String)
    (cfg : DxfLayerConfig) (hk : mapEntityType e.type = some k) :
    (r12Denies v k = true →
        v = DxfVersion.AC1009 ∧ R12_SUPPORTED_TYPES.contains k = false) ∧
    (v = DxfVersion.AC1009 → R12_SUPPORTED_TYPES.contains k = false →
        r12Denies v k = true) ∧
    (v ≠ DxfVersion.AC1009 → r12Denies v k = false) ∧
    (r12Denies v k = true →
      (exportEntity e v cfg).1.success = false ∧
      (exportEntity e v cfg).1.dxf_type = some k ∧
      (exportEntity e v cfg).1.error
          = some "R12 version does not support this entity type" ∧
      (validateEntity e v).exportable = false ∧
      (validateEntity e v).issues.map (fun i => (i.severity, i.code))
          = [(IssueSeverity.error, "VERSION_INCOMPATIBLE")]) ∧
    (r12Denies v k = false →
      (validateEntity e v).exportable = true ∧ (validateEntity e v).issues = []) := by
  refine ⟨?_, ?_, ?_, ?_, ?_⟩
  · intro hd
    unfold r12Denies at hd
    simp only [Bool.and_eq_true, decide_eq_true_eq, Bool.not_eq_true'] at hd
    exact hd
  · intro h1 h2
    unfold r12Denies
    rw [h1, h2]
    simp
  · intro hv
    unfold r12Denies
    rw [decide_eq_false hv]
    simp
  · intro hd
    refine ⟨?_, ?_, ?_, ?_, ?_⟩ <;> simp [exportEntity, validateEntity, hk, hd]
  · intro hd
    constructor <;> simp [validateEntity, hk, hd]

theorem c3_version_compatibility_witness :
    (exportEntity c3Entity DxfVersion.AC1009 {}).1.success = false ∧
    (validateEntity c3Entity DxfVersion.AC1009).exportable = false ∧
    (validateEntity c3Entity DxfVersion.AC1009).issues.map
        (fun i => (i.severity, i.code))
      = [(IssueSeverity.error, "VERSION_INCOMPATIBLE")] := by
  have h := (c3_version_compatibility c3Entity DxfVersion.AC1009 "SPLINE" {}
      (by rfl)).2.2.2.1 (by rfl)
  exact ⟨h.1, h.2.2.2.1, h.2.2.2.2⟩

/-- C2: for every export invocation the overall status is the pure
function of the per-entity counts recomputed from the emitted result
list: ERROR when failed is positive and exported is zero, PARTIAL when
both are positive, SUCCESS otherwise — in particular the skipped count
plays no role, so skipped entities alone never downgrade the status. -/
theorem c2_status_pure_function (scene : SceneModel) (settings : DxfExportSettings)
    (entityIds layerNames : Option (List String)) :
    (exportScene scene settings entityIds layerNames).status
      = statusOf
          (failedCount (exportScene scene settings entityIds layerNames).entity_results)
          (exportedCount (exportScene scene settings entityIds layerNames).entity_results)
    := by
  have h := exportFold settings
    (filterEntities scene.entities entityIds layerNames settings.layers) {}
  simp only [exportScene]
  rw [h.1, h.2.1, h.2.2.2]
  simp [statusOf]

/-- C9: for every export invocation the three per-entity counters
partition the filtered entities — their sum equals the number of
filtered entities, each filtered entity landing in exactly one bucket —
and is therefore at most the pre-filter total. -/
theorem c9_stats_partition (scene : SceneModel) (settings : DxfExportSettings)
    (entityIds layerNames : Option (List String)) :
    (exportScene scene settings entityIds layerNames).exported
      + (exportScene scene settings entityIds layerNames).skipped
      + (exportScene scene settings entityIds layerNames).failed
      = (filterEntities scene.entities entityIds layerNames settings.layers).length ∧
    (exportScene scene settings entityIds layerNames).exported
      + (exportScene scene settings entityIds layerNames).skipped
      + (exportScene scene settings entityIds layerNames).failed
      ≤ (exportScene scene settings entityIds layerNames).total := by
  have h := exportFold settings
    (filterEntities scene.entities entityIds layerNames settings.layers) {}
  have hsum := countPartition
    ((filterEntities scene.entities entityIds layerNames settings.layers).map
      (fun e => (exportEntity e settings.version settings.layers).1))
  have hlen :=
    (filterEntities_sublist scene.entities entityIds layerNames settings.layers).length_le
  have hpart : (exportScene scene settings entityIds layerNames).exported
      + (exportScene scene settings entityIds layerNames).skipped
      + (exportScene scene settings entityIds layerNames).failed
      = (filterEntities scene.entities entityIds layerNames settings.layers).length := by
    simp only [exportScene]
    rw [h.2.1, h.2.2.1, h.2.2.2]
    simp only [List.length_map] at hsum
    simp
    omega
  refine ⟨hpart, ?_⟩
  rw [hpart]
  simpa only [exportScene] using hlen

def c8Entity : SceneEntity := { id := "m1", type := "angle-measurement" }

def c8Scene : SceneModel := { entities := [{ id := "s1", type := "spline" }] }

/-- C8: every entity whose kind is unknown to the registry or mapped to
none validates as non-exportable with exactly one WARNING issue of code
NOT_EXPORTABLE, and a scene's overall validity equals the vanishing of
the total ERROR-severity issue count over all entity results, so
warnings and info never invalidate. -/
theorem c8_unknown_kind_validation (e : SceneEntity) (v : DxfVersion)
    (scene : SceneModel) (w : DxfVersion)
    (h : mapEntityType e.type = Option.none) :
    (validateEntity e v).exportable = false ∧
    (validateEntity e v).issues.map (fun i => (i.severity, i.code))
        = [(IssueSeverity.warning, "NOT_EXPORTABLE")] ∧
    (validateScene scene w).valid
        = (errorIssueCount (validateScene scene w).results == 0) := by
  refine ⟨by simp [validateEntity, h], by simp [validateEntity, h], ?_⟩
  have hv := valFold w scene.entities {}
  simp only [validateScene]
  rw [hv.1, hv.2]
  simp

theorem c8_unknown_kind_validation_witness :
    (validateEntity c8Entity DxfVersion.AC1015).exportable = false ∧
    (validateEntity c8Entity DxfVersion.AC1015).issues.map
        (fun i => (i.severity, i.code))
      = [(IssueSeverity.warning, "NOT_EXPORTABLE")] ∧
    (validateScene c8Scene DxfVersion.AC1009).valid
      = (errorIssueCount (validateScene c8Scene DxfVersion.AC1009).results == 0) :=
  c8_unknown_kind_validation c8Entity DxfVersion.AC1015 c8Scene DxfVersion.AC1009
    (by rfl)
